import Mathlib

/-!
# go-vault-pki: issuing a certificate from Vault and assembling a TLS configuration

A shallow embedding of `main.go` (package `vaultpki`).

* Go strings and byte slices are Lean `String`s; the conversion `[]byte(s)` is the identity.
* A Go result pair `(value, error)` is a Lean pair whose components are `Option`s where the Go
  component is a pointer or an `error` interface (`none` is `nil`).
* The two library calls the package makes, `Client.Logical().Write` and `tls.X509KeyPair`, are
  not part of the package: the first is a field of the client handle, the second a parameter.
  Both are recorded in a trace of events, in the order in which the code performs them.
* A method with receiver `v *VaultPKI` runs on a `State` that holds the receiver's fields and
  the trace, and returns the state it leaves behind.
* A failing single-valued type assertion `x.(string)` is a run-time panic: `Outcome.panicked`.
-/

set_option linter.dupNamespace false

namespace vaultpki

/-- Dynamic value of Go type `interface{}`, as it occurs in a `map[string]interface{}`. -/
inductive GoValue where
  | nil
  | string (s : String)
  | bool (b : Bool)
  | number (n : String)
  | slice (xs : List GoValue)
  | map (kvs : List (String × GoValue))

/-- Go `map[string]interface{}`: association list, the nil map is the empty list. -/
abbrev GoMap := List (String × GoValue)

/-- Go map indexing `m[k]`: the zero value (the nil interface) when the key is absent. -/
def GoMap.index (m : GoMap) (k : String) : GoValue :=
  (List.lookup k m).getD GoValue.nil

/-- Go `error` values. `packageSentinel` are the values made by `errors.New` in the package's
`var` block; `external` are the values made by the libraries the package calls. -/
inductive GoError where
  | packageSentinel (text : String)
  | external (text : String)
deriving DecidableEq, Repr

/-- Source: `ErrCertIssueFailed = errors.New("failed to issue new certificate from vault")`. -/
def ErrCertIssueFailed : GoError :=
  GoError.packageSentinel "failed to issue new certificate from vault"

/-- Run-time panics the package can raise. -/
inductive GoPanic where
  | interfaceConversion (dynamic : GoValue)
  | nilDereference

/-- Result of running a Go function body: it returns its results, or it panics. -/
inductive Outcome (α : Type) where
  | returned (a : α)
  | panicked (p : GoPanic)

/-- Go single-valued type assertion `x.(string)`. -/
def assertString : GoValue → Outcome String
  | GoValue.string s => Outcome.returned s
  | v => Outcome.panicked (GoPanic.interfaceConversion v)

/-- Library type `api.Secret` (the fields that carry data of the response). -/
structure api.Secret where
  RequestID : String
  LeaseID : String
  LeaseDuration : Int
  Renewable : Bool
  Data : GoMap
  Warnings : List String

/-- Calls the package makes to its libraries, in program order. -/
inductive Event where
  | write (path : String) (data : GoMap)
  | x509KeyPair (certPEMBlock keyPEMBlock : String)

/-- Library type `api.Client` as a non-nil handle, seen through the one method the package
calls on it: `Logical().Write(path, data)`, whose answer may depend on the calls made so far. -/
structure api.Client where
  Write : List Event → String → GoMap → Option api.Secret × Option GoError

/-- Library type `tls.Certificate`. -/
structure tls.Certificate where
  Certificate : List String
  PrivateKey : String
deriving DecidableEq, Repr, Inhabited

/-- Library type `tls.Config` (the field the package sets; the others keep their zero value). -/
structure tls.Config where
  Certificates : List tls.Certificate
deriving DecidableEq, Repr

/-- Source: `type VaultPKI struct`. -/
structure VaultPKI where
  path : String
  role : String
  cn : String
  certTTL : String
  Client : api.Client

/-- The receiver's fields together with the trace of library calls. -/
structure State where
  self : VaultPKI
  trace : List Event

/-- Library functions of package `api` used by the constructors; `NewClient` returns a client
or an error. -/
structure api.Package (Config : Type) where
  DefaultConfig : Config
  NewClient : Config → Except GoError api.Client

/-- Verbs of `fmt.Sprintf` over string operands: `%s` writes the next operand, `%%` a percent
sign, any other character is copied; a `%s` without operand writes `%!s(MISSING)`. -/
def sprintfChars : List Char → List String → List Char
  | [], _ => []
  | '%' :: 's' :: rest, a :: as => a.data ++ sprintfChars rest as
  | '%' :: 's' :: rest, [] => "%!s(MISSING)".data ++ sprintfChars rest []
  | '%' :: '%' :: rest, as => '%' :: sprintfChars rest as
  | c :: rest, as => c :: sprintfChars rest as

/-- Library function `fmt.Sprintf` on string operands. -/
def Sprintf (format : String) (args : List String) : String :=
  String.mk (sprintfChars format.data args)

/-- Source: `func NewWithConfig(path, role, cn, certTTL string, cfg *api.Config)`. The field
`role` is not set by the composite literal and keeps its zero value. -/
def NewWithConfig {Config : Type} (lib : api.Package Config) (path role cn certTTL : String)
    (cfg : Config) : Option VaultPKI × Option GoError :=
  match lib.NewClient cfg with
  | Except.error err => (none, some err)
  | Except.ok v =>
    let p := Sprintf "%s/issue/%s" [path, role]
    (some { path := p, role := "", cn := cn, certTTL := certTTL, Client := v }, none)

/-- Source: `func New(path, role, cn, certTTL string)`. -/
def New {Config : Type} (lib : api.Package Config) (path role cn certTTL : String) :
    Option VaultPKI × Option GoError :=
  let cfg := lib.DefaultConfig
  NewWithConfig lib path role cn certTTL cfg

/-- The request body built by `IssueNewCertificate`. -/
def issueData (v : VaultPKI) : GoMap :=
  [("common_name", GoValue.string v.cn), ("ttl", GoValue.string v.certTTL)]

/-- Source: `func (v *VaultPKI) IssueNewCertificate() (*api.Secret, error)`. -/
def IssueNewCertificate (s : State) : (Option api.Secret × Option GoError) × State :=
  let data := issueData s.self
  let res := s.self.Client.Write s.trace s.self.path data
  let s1 : State := { s with trace := s.trace ++ [Event.write s.self.path data] }
  match res with
  | (_, some err) => ((none, some err), s1)
  | (none, none) => ((none, some ErrCertIssueFailed), s1)
  | (some r, none) => ((some r, none), s1)

/-- Source: `crtSlice := make([]tls.Certificate, 1); crtSlice[0] = crt`. -/
def crtSlice (crt : tls.Certificate) : List tls.Certificate :=
  (List.replicate 1 (default : tls.Certificate)).set 0 crt

/-- Source: lines 72 to 87 of `RefreshTLSConfig`, the part after the secret `d` is obtained. -/
def assemble (X509KeyPair : String → String → tls.Certificate × Option GoError)
    (d : api.Secret) (s1 : State) : Outcome (Option tls.Config × Option GoError) × State :=
  match assertString (d.Data.index "issuing_ca") with
  | Outcome.panicked p => (Outcome.panicked p, s1)
  | Outcome.returned caPEM =>
    match assertString (d.Data.index "certificate") with
    | Outcome.panicked p => (Outcome.panicked p, s1)
    | Outcome.returned crtPEM =>
      let chainPEM := crtPEM ++ "\n" ++ caPEM
      match assertString (d.Data.index "private_key") with
      | Outcome.panicked p => (Outcome.panicked p, s1)
      | Outcome.returned keyPEM =>
        let s2 : State := { s1 with trace := s1.trace ++ [Event.x509KeyPair chainPEM keyPEM] }
        match X509KeyPair chainPEM keyPEM with
        | (_, some err) => (Outcome.returned (none, some err), s2)
        | (crt, none) => (Outcome.returned (some { Certificates := crtSlice crt }, none), s2)

/-- Source: `func (v *VaultPKI) RefreshTLSConfig() (*tls.Config, error)`. -/
def RefreshTLSConfig (X509KeyPair : String → String → tls.Certificate × Option GoError)
    (s : State) : Outcome (Option tls.Config × Option GoError) × State :=
  match IssueNewCertificate s with
  | ((_, some err), s1) => (Outcome.returned (none, some err), s1)
  | ((none, none), s1) => (Outcome.panicked GoPanic.nilDereference, s1)
  | ((some d, none), s1) => assemble X509KeyPair d s1

/-- The answer of the transport to the one call `IssueNewCertificate` makes in state `s`:
the value of `v.Client.Logical().Write(v.path, data)`. -/
def writeResult (s : State) : Option api.Secret × Option GoError :=
  s.self.Client.Write s.trace s.self.path (issueData s.self)

/-- Whether the dynamic type of an interface value is `string`. -/
def GoValue.isString : GoValue → Bool
  | GoValue.string _ => true
  | _ => false

/-- The write calls of a trace, in order: request path and body of each. -/
def writesOf : List Event → List (String × GoMap)
  | [] => []
  | Event.write p b :: rest => (p, b) :: writesOf rest
  | Event.x509KeyPair _ _ :: rest => writesOf rest

/-- The key-pair parser calls of a trace, in order: chain bytes and key bytes of each. -/
def keyPairCallsOf : List Event → List (String × String)
  | [] => []
  | Event.write _ _ :: rest => keyPairCallsOf rest
  | Event.x509KeyPair c k :: rest => (c, k) :: keyPairCallsOf rest

/-! ## Concrete clients, responses and parsers used to instantiate the theorems -/

/-- A client handle whose transport gives the same answer to every write call. -/
def clientAnswering (res : Option api.Secret × Option GoError) : api.Client :=
  { Write := fun _ _ _ => res }

/-- A response with the given data map. -/
def secretOf (data : GoMap) : api.Secret :=
  { RequestID := "req-1", LeaseID := "", LeaseDuration := 3600, Renewable := false,
    Data := data, Warnings := [] }

/-- The client of the package's test: mount `test_pki`, role `some-service-role`. -/
def testVault (c : api.Client) : VaultPKI :=
  { path := "test_pki/issue/some-service-role", role := "",
    cn := "some-service.example.tld", certTTL := "3600", Client := c }

/-- A state of the test client before any call. -/
def testState (res : Option api.Secret × Option GoError) : State :=
  { self := testVault (clientAnswering res), trace := [] }

/-- A well-formed data map: the three PEM fields are strings. -/
def dataFull : GoMap :=
  [("certificate", GoValue.string "LEAF"), ("issuing_ca", GoValue.string "CA"),
   ("private_key", GoValue.string "KEY"), ("serial_number", GoValue.string "01")]

/-- A data map without the key `issuing_ca`. -/
def dataNoCA : GoMap :=
  [("certificate", GoValue.string "LEAF"), ("private_key", GoValue.string "KEY")]

/-- A key-pair parser that accepts every pair. -/
def pairAccept : String → String → tls.Certificate × Option GoError :=
  fun chain key => ({ Certificate := [chain], PrivateKey := key }, none)

/-- A key-pair parser that rejects every pair. -/
def pairReject : String → String → tls.Certificate × Option GoError :=
  fun _ _ => (default, some (GoError.external "tls: private key does not match public key"))

/-- A library whose `NewClient` always succeeds, with a client that answers nothing. -/
def libAccept : api.Package Unit :=
  { DefaultConfig := (), NewClient := fun _ => Except.ok (clientAnswering (none, none)) }

/-- A library whose `NewClient` always fails. -/
def libReject : api.Package Unit :=
  { DefaultConfig := (), NewClient := fun _ => Except.error (GoError.external "bad config") }

/-! ## Auxiliary lemmas -/

theorem assertString_string (s : String) :
    assertString (GoValue.string s) = Outcome.returned s := rfl

theorem assertString_not_string (v : GoValue) (h : v.isString = false) :
    assertString v = Outcome.panicked (GoPanic.interfaceConversion v) := by
  cases v <;> first | rfl | simp [GoValue.isString] at h

theorem sprintf_issue (a b : String) :
    Sprintf "%s/issue/%s" [a, b] = a ++ "/issue/" ++ b := by
  have hfmt : "%s/issue/%s".data
      = ['%', 's', '/', 'i', 's', 's', 'u', 'e', '/', '%', 's'] := rfl
  have hmid : "/issue/".data = ['/', 'i', 's', 's', 'u', 'e', '/'] := rfl
  apply String.ext
  simp [Sprintf, hfmt, hmid, sprintfChars, String.data_append]

theorem issue_state (s : State) :
    (IssueNewCertificate s).2
      = { s with trace := s.trace ++ [Event.write s.self.path (issueData s.self)] } := by
  unfold IssueNewCertificate
  dsimp only
  generalize s.self.Client.Write s.trace s.self.path (issueData s.self) = res
  rcases res with ⟨_ | r, _ | e⟩ <;> rfl

theorem issue_result (s : State) :
    (IssueNewCertificate s).1
      = match writeResult s with
        | (_, some err) => (none, some err)
        | (none, none) => (none, some ErrCertIssueFailed)
        | (some r, none) => (some r, none) := by
  unfold IssueNewCertificate writeResult
  dsimp only
  generalize s.self.Client.Write s.trace s.self.path (issueData s.self) = res
  rcases res with ⟨_ | r, _ | e⟩ <;> rfl

theorem refresh_of_secret (kp : String → String → tls.Certificate × Option GoError)
    (s : State) (d : api.Secret) (hw : writeResult s = (some d, none)) :
    RefreshTLSConfig kp s = assemble kp d (IssueNewCertificate s).2 := by
  have h1 := issue_result s
  rw [hw] at h1
  unfold RefreshTLSConfig
  rcases hI : IssueNewCertificate s with ⟨⟨r, e⟩, s1⟩
  rw [hI] at h1
  simp only [Prod.mk.injEq] at h1
  obtain ⟨h1, h2⟩ := h1
  subst h1 h2
  rfl

theorem writesOf_append (xs ys : List Event) :
    writesOf (xs ++ ys) = writesOf xs ++ writesOf ys := by
  induction xs with
  | nil => rfl
  | cons x xs ih => cases x <;> simp [writesOf, ih]

theorem assemble_strings (kp : String → String → tls.Certificate × Option GoError)
    (d : api.Secret) (s1 : State) (L C K : String)
    (hL : d.Data.index "certificate" = GoValue.string L)
    (hC : d.Data.index "issuing_ca" = GoValue.string C)
    (hK : d.Data.index "private_key" = GoValue.string K) :
    assemble kp d s1
      = match kp (L ++ "\n" ++ C) K with
        | (_, some err) =>
          (Outcome.returned (none, some err),
            { s1 with trace := s1.trace ++ [Event.x509KeyPair (L ++ "\n" ++ C) K] })
        | (crt, none) =>
          (Outcome.returned (some { Certificates := crtSlice crt }, none),
            { s1 with trace := s1.trace ++ [Event.x509KeyPair (L ++ "\n" ++ C) K] }) := by
  unfold assemble
  rw [hL, hC, hK]
  simp only [assertString_string]

theorem assemble_malformed (kp : String → String → tls.Certificate × Option GoError)
    (d : api.Secret) (s1 : State)
    (hbad : (d.Data.index "certificate").isString = false
      ∨ (d.Data.index "issuing_ca").isString = false
      ∨ (d.Data.index "private_key").isString = false) :
    ∃ k, k ∈ ["issuing_ca", "certificate", "private_key"]
      ∧ assemble kp d s1
        = (Outcome.panicked (GoPanic.interfaceConversion (d.Data.index k)), s1) := by
  unfold assemble
  cases hca : (d.Data.index "issuing_ca").isString with
  | false =>
    refine ⟨"issuing_ca", by simp, ?_⟩
    rw [assertString_not_string _ hca]
  | true =>
    obtain ⟨C, hC⟩ : ∃ C, d.Data.index "issuing_ca" = GoValue.string C := by
      cases hv : d.Data.index "issuing_ca" <;> simp [hv, GoValue.isString] at hca ⊢
    rw [hC, assertString_string]
    cases hcrt : (d.Data.index "certificate").isString with
    | false =>
      refine ⟨"certificate", by simp, ?_⟩
      rw [assertString_not_string _ hcrt]
    | true =>
      obtain ⟨L, hL⟩ : ∃ L, d.Data.index "certificate" = GoValue.string L := by
        cases hv : d.Data.index "certificate" <;> simp [hv, GoValue.isString] at hcrt ⊢
      rw [hL, assertString_string]
      have hkey : (d.Data.index "private_key").isString = false := by
        rcases hbad with h | h | h
        · rw [hcrt] at h; cases h
        · rw [hca] at h; cases h
        · exact h
      refine ⟨"private_key", by simp, ?_⟩
      simp only [assertString_not_string _ hkey]

theorem keyPairCallsOf_append (xs ys : List Event) :
    keyPairCallsOf (xs ++ ys) = keyPairCallsOf xs ++ keyPairCallsOf ys := by
  induction xs with
  | nil => rfl
  | cons x xs ih => cases x <;> simp [keyPairCallsOf, ih]

theorem assemble_frame (kp : String → String → tls.Certificate × Option GoError)
    (d : api.Secret) (s1 : State) :
    (assemble kp d s1).2.self = s1.self
      ∧ writesOf (assemble kp d s1).2.trace = writesOf s1.trace := by
  unfold assemble
  cases assertString (d.Data.index "issuing_ca") with
  | panicked p => exact ⟨rfl, rfl⟩
  | returned caPEM =>
    cases assertString (d.Data.index "certificate") with
    | panicked p => exact ⟨rfl, rfl⟩
    | returned crtPEM =>
      cases assertString (d.Data.index "private_key") with
      | panicked p => exact ⟨rfl, rfl⟩
      | returned keyPEM =>
        dsimp only
        rcases kp (crtPEM ++ "\n" ++ caPEM) keyPEM with ⟨crt, _ | e⟩ <;>
          simp [writesOf_append, writesOf]

theorem refresh_frame (kp : String → String → tls.Certificate × Option GoError) (s : State) :
    (RefreshTLSConfig kp s).2.self = s.self
      ∧ writesOf (RefreshTLSConfig kp s).2.trace
        = writesOf s.trace ++ [(s.self.path, issueData s.self)] := by
  have hst := issue_state s
  have hw : writesOf (s.trace ++ [Event.write s.self.path (issueData s.self)])
      = writesOf s.trace ++ [(s.self.path, issueData s.self)] := by
    rw [writesOf_append]; rfl
  unfold RefreshTLSConfig
  rcases hI : IssueNewCertificate s with ⟨⟨r, err⟩, s1⟩
  rw [hI] at hst
  simp only at hst
  subst hst
  rcases r with _ | d <;> rcases err with _ | e
  · exact ⟨rfl, hw⟩
  · exact ⟨rfl, hw⟩
  · have h := assemble_frame kp d
      { self := s.self, trace := s.trace ++ [Event.write s.self.path (issueData s.self)] }
    exact ⟨h.1, h.2.trans hw⟩
  · exact ⟨rfl, hw⟩

theorem newWithConfig_of_client {Config : Type} (lib : api.Package Config)
    (path role cn certTTL : String) (cfg : Config) (c : api.Client)
    (hc : lib.NewClient cfg = Except.ok c) :
    NewWithConfig lib path role cn certTTL cfg
      = (some { path := path ++ "/issue/" ++ role, role := "", cn := cn, certTTL := certTTL,
                Client := c }, none) := by
  unfold NewWithConfig
  rw [hc]
  simp only [sprintf_issue]

theorem newWithConfig_of_error {Config : Type} (lib : api.Package Config)
    (path role cn certTTL : String) (cfg : Config) (e : GoError)
    (hc : lib.NewClient cfg = Except.error e) :
    NewWithConfig lib path role cn certTTL cfg = (none, some e) := by
  unfold NewWithConfig
  rw [hc]

/-! ## The claims -/

/-- C1, as the code behaves: when the transport answers with a secret whose data map lacks
one of the keys certificate, issuing_ca, private_key, or holds a non-string value under one of
them, RefreshTLSConfig does not return: it panics with an interface-conversion failure on the
value found under one of the three keys. The key-pair parser is not called and no TLS config
is produced; the only library call made is the one write. -/
theorem C1_malformed_response_panics
    (kp : String → String → tls.Certificate × Option GoError) (s : State) (d : api.Secret)
    (hw : writeResult s = (some d, none))
    (hbad : (d.Data.index "certificate").isString = false
      ∨ (d.Data.index "issuing_ca").isString = false
      ∨ (d.Data.index "private_key").isString = false) :
    (∃ k, k ∈ ["issuing_ca", "certificate", "private_key"]
        ∧ (RefreshTLSConfig kp s).1
          = Outcome.panicked (GoPanic.interfaceConversion (d.Data.index k)))
      ∧ (RefreshTLSConfig kp s).2.trace
        = s.trace ++ [Event.write s.self.path (issueData s.self)] := by
  rw [refresh_of_secret kp s d hw]
  obtain ⟨k, hk, hres⟩ := assemble_malformed kp d (IssueNewCertificate s).2 hbad
  rw [hres, issue_state]
  exact ⟨⟨k, hk, rfl⟩, rfl⟩

/-- C1 witness: the test client, answered with a data map without issuing_ca. -/
theorem C1_malformed_response_panics_witness :
    (∃ k, k ∈ ["issuing_ca", "certificate", "private_key"]
        ∧ (RefreshTLSConfig pairAccept (testState (some (secretOf dataNoCA), none))).1
          = Outcome.panicked
              (GoPanic.interfaceConversion ((secretOf dataNoCA).Data.index k)))
      ∧ (RefreshTLSConfig pairAccept (testState (some (secretOf dataNoCA), none))).2.trace
        = [] ++ [Event.write "test_pki/issue/some-service-role"
            (issueData (testVault (clientAnswering (some (secretOf dataNoCA), none))))] :=
  C1_malformed_response_panics pairAccept (testState (some (secretOf dataNoCA), none))
    (secretOf dataNoCA) rfl (Or.inr (Or.inl rfl))

/-- C1 counterexample: the transport answers the test client, without error, with a secret
whose data map has certificate and private_key but no issuing_ca. RefreshTLSConfig panics on
the nil interface value; it returns neither a config nor an error. -/
theorem C1_counterexample :
    writeResult (testState (some (secretOf dataNoCA), none))
        = (some (secretOf dataNoCA), none)
      ∧ List.lookup "issuing_ca" (secretOf dataNoCA).Data = none
      ∧ (RefreshTLSConfig pairAccept (testState (some (secretOf dataNoCA), none))).1
        = Outcome.panicked (GoPanic.interfaceConversion GoValue.nil)
      ∧ ¬ ∃ r, (RefreshTLSConfig pairAccept (testState (some (secretOf dataNoCA), none))).1
        = Outcome.returned r := by
  refine ⟨rfl, rfl, rfl, ?_⟩
  rintro ⟨r, hr⟩
  have h : (RefreshTLSConfig pairAccept (testState (some (secretOf dataNoCA), none))).1
      = Outcome.panicked (GoPanic.interfaceConversion GoValue.nil) := rfl
  rw [h] at hr
  cases hr

/-- C2: if the write call returns no error and a nil secret, IssueNewCertificate returns a nil
secret and the sentinel ErrCertIssueFailed; if the write call returns a non-nil error e (with
any secret), IssueNewCertificate returns a nil secret and e itself. -/
theorem C2_issue_failure_paths (s : State) :
    (writeResult s = (none, none)
        → (IssueNewCertificate s).1 = (none, some ErrCertIssueFailed))
      ∧ (∀ (r : Option api.Secret) (e : GoError), writeResult s = (r, some e)
        → (IssueNewCertificate s).1 = (none, some e)) := by
  refine ⟨fun h => ?_, fun r e h => ?_⟩
  · rw [issue_result, h]
  · rw [issue_result, h]
    cases r <;> rfl

/-- C2 witness: an empty answer gives the sentinel, a transport error is passed on. -/
theorem C2_issue_failure_paths_witness :
    (IssueNewCertificate (testState (none, none))).1
        = (none, some (GoError.packageSentinel "failed to issue new certificate from vault"))
      ∧ (IssueNewCertificate
          (testState (none, some (GoError.external "connection refused")))).1
        = (none, some (GoError.external "connection refused")) :=
  ⟨(C2_issue_failure_paths (testState (none, none))).1 rfl,
    (C2_issue_failure_paths
      (testState (none, some (GoError.external "connection refused")))).2 none _ rfl⟩

/-- C3: when the response fields certificate, issuing_ca and private_key are the strings L, C
and K, RefreshTLSConfig calls the key-pair parser exactly once, after the write, with chain
bytes L followed by one newline followed by C, and key bytes K. -/
theorem C3_chain_is_leaf_newline_ca
    (kp : String → String → tls.Certificate × Option GoError) (s : State) (d : api.Secret)
    (L C K : String)
    (hw : writeResult s = (some d, none))
    (hL : d.Data.index "certificate" = GoValue.string L)
    (hC : d.Data.index "issuing_ca" = GoValue.string C)
    (hK : d.Data.index "private_key" = GoValue.string K) :
    (RefreshTLSConfig kp s).2.trace
      = s.trace ++ [Event.write s.self.path (issueData s.self),
          Event.x509KeyPair (L ++ "\n" ++ C) K] := by
  rw [refresh_of_secret kp s d hw, assemble_strings kp d _ L C K hL hC hK, issue_state]
  rcases kp (L ++ "\n" ++ C) K with ⟨crt, _ | e⟩ <;> simp

/-- C3 witness: leaf LEAF, issuing CA named CA and key KEY give the chain LEAF, newline, CA. -/
theorem C3_chain_is_leaf_newline_ca_witness :
    (RefreshTLSConfig pairAccept (testState (some (secretOf dataFull), none))).2.trace
      = [] ++ [Event.write "test_pki/issue/some-service-role"
            (issueData (testVault (clientAnswering (some (secretOf dataFull), none)))),
          Event.x509KeyPair ("LEAF" ++ "\n" ++ "CA") "KEY"] :=
  C3_chain_is_leaf_newline_ca pairAccept (testState (some (secretOf dataFull), none))
    (secretOf dataFull) "LEAF" "CA" "KEY" rfl rfl rfl rfl

/-- C4: whenever the Vault client can be constructed, NewWithConfig returns, without error, a
client whose stored request path is path, then /issue/, then role; and IssueNewCertificate on
that client writes to exactly that path. -/
theorem C4_request_path {Config : Type} (lib : api.Package Config)
    (path role cn certTTL : String) (cfg : Config) (c : api.Client)
    (hc : lib.NewClient cfg = Except.ok c) :
    ∃ v, NewWithConfig lib path role cn certTTL cfg = (some v, none)
      ∧ v.path = path ++ "/issue/" ++ role
      ∧ ∀ tr : List Event,
          (IssueNewCertificate { self := v, trace := tr }).2.trace
            = tr ++ [Event.write (path ++ "/issue/" ++ role) (issueData v)] := by
  refine ⟨{ path := path ++ "/issue/" ++ role, role := "", cn := cn, certTTL := certTTL,
            Client := c }, ?_, rfl, fun tr => ?_⟩
  · unfold NewWithConfig
    rw [hc]
    simp only [sprintf_issue]
  · rw [issue_state]

/-- C4 witness: the constructor call of the package's test. -/
theorem C4_request_path_witness :
    ∃ v, NewWithConfig libAccept "test_pki" "some-service-role" "some-service.example.tld"
          "3600" () = (some v, none)
      ∧ v.path = "test_pki" ++ "/issue/" ++ "some-service-role"
      ∧ ∀ tr : List Event,
          (IssueNewCertificate { self := v, trace := tr }).2.trace
            = tr ++ [Event.write ("test_pki" ++ "/issue/" ++ "some-service-role")
                (issueData v)] :=
  C4_request_path libAccept "test_pki" "some-service-role" "some-service.example.tld" "3600" ()
    (clientAnswering (none, none)) rfl

/-- C5: whatever the transport answers, one call of IssueNewCertificate adds exactly one event
to the trace: a write to the stored path whose body is the map with the two entries
common_name, the client's common name, and ttl, the client's TTL. No other key is present in
the body. -/
theorem C5_single_write (s : State) :
    (IssueNewCertificate s).2.trace
        = s.trace ++ [Event.write s.self.path
            [("common_name", GoValue.string s.self.cn), ("ttl", GoValue.string s.self.certTTL)]]
      ∧ writesOf (IssueNewCertificate s).2.trace
        = writesOf s.trace ++ [(s.self.path, issueData s.self)]
      ∧ (issueData s.self).length = 2
      ∧ (issueData s.self).index "common_name" = GoValue.string s.self.cn
      ∧ (issueData s.self).index "ttl" = GoValue.string s.self.certTTL := by
  rw [issue_state]
  refine ⟨rfl, ?_, rfl, ?_, ?_⟩
  · rw [writesOf_append]; rfl
  · simp [issueData, GoMap.index, List.lookup]
  · simp [issueData, GoMap.index, List.lookup]

/-- C6: IssueNewCertificate returns a nil error exactly when the write call returned a nil
error and a non-nil secret, and then it returns that very secret. -/
theorem C6_success_iff (s : State) :
    ((IssueNewCertificate s).1.2 = none ↔ ∃ r, writeResult s = (some r, none))
      ∧ (∀ r : api.Secret, writeResult s = (some r, none)
        → (IssueNewCertificate s).1 = (some r, none)) := by
  rw [issue_result]
  rcases writeResult s with ⟨_ | r, _ | e⟩ <;> simp

/-- C6 witness: the test client answered with a full response returns that response. -/
theorem C6_success_iff_witness :
    (IssueNewCertificate (testState (some (secretOf dataFull), none))).1
      = (some (secretOf dataFull), none) :=
  (C6_success_iff (testState (some (secretOf dataFull), none))).2 (secretOf dataFull) rfl

/-- C7: if IssueNewCertificate fails with error e, RefreshTLSConfig returns a nil config and e
and leaves the state IssueNewCertificate left, so the key-pair parser is not called; and if
the three PEM fields are strings L, C, K and the key-pair parser rejects the pair made of L,
newline, C and of K with error e, RefreshTLSConfig returns a nil config and e. -/
theorem C7_first_error_propagates
    (kp : String → String → tls.Certificate × Option GoError) (s : State) :
    (∀ e : GoError, (IssueNewCertificate s).1.2 = some e
        → RefreshTLSConfig kp s = (Outcome.returned (none, some e), (IssueNewCertificate s).2)
          ∧ keyPairCallsOf (RefreshTLSConfig kp s).2.trace = keyPairCallsOf s.trace)
      ∧ (∀ (d : api.Secret) (L C K : String) (c : tls.Certificate) (e : GoError),
          writeResult s = (some d, none)
          → d.Data.index "certificate" = GoValue.string L
          → d.Data.index "issuing_ca" = GoValue.string C
          → d.Data.index "private_key" = GoValue.string K
          → kp (L ++ "\n" ++ C) K = (c, some e)
          → (RefreshTLSConfig kp s).1 = Outcome.returned (none, some e)) := by
  constructor
  · intro e he
    have hR : RefreshTLSConfig kp s
        = (Outcome.returned (none, some e), (IssueNewCertificate s).2) := by
      unfold RefreshTLSConfig
      rcases hI : IssueNewCertificate s with ⟨⟨r, err⟩, s1⟩
      rw [hI] at he
      simp only at he
      subst he
      cases r <;> rfl
    refine ⟨hR, ?_⟩
    rw [hR, issue_state]
    simp only
    rw [keyPairCallsOf_append]
    simp [keyPairCallsOf]
  · intro d L C K c e hw hL hC hK hkp
    rw [refresh_of_secret kp s d hw, assemble_strings kp d _ L C K hL hC hK, hkp]

/-- C7 witness: a transport error reaches the caller, and so does a parser rejection. -/
theorem C7_first_error_propagates_witness :
    (RefreshTLSConfig pairAccept
        (testState (none, some (GoError.external "connection refused")))
      = (Outcome.returned (none, some (GoError.external "connection refused")),
          (IssueNewCertificate
            (testState (none, some (GoError.external "connection refused")))).2)
      ∧ keyPairCallsOf (RefreshTLSConfig pairAccept
          (testState (none, some (GoError.external "connection refused")))).2.trace
        = keyPairCallsOf [])
      ∧ (RefreshTLSConfig pairReject (testState (some (secretOf dataFull), none))).1
        = Outcome.returned
            (none, some (GoError.external "tls: private key does not match public key")) :=
  ⟨(C7_first_error_propagates pairAccept
      (testState (none, some (GoError.external "connection refused")))).1 _ rfl,
    (C7_first_error_propagates pairReject (testState (some (secretOf dataFull), none))).2
      (secretOf dataFull) "LEAF" "CA" "KEY" default _ rfl rfl rfl rfl rfl⟩

/-- C8: when the three PEM fields are strings L, C, K and the key-pair parser accepts the pair
made of L, newline, C and of K with certificate c, RefreshTLSConfig returns a nil error and a
TLS config whose Certificates list has length exactly 1 and whose single element is c. -/
theorem C8_single_certificate
    (kp : String → String → tls.Certificate × Option GoError) (s : State) (d : api.Secret)
    (L C K : String) (c : tls.Certificate)
    (hw : writeResult s = (some d, none))
    (hL : d.Data.index "certificate" = GoValue.string L)
    (hC : d.Data.index "issuing_ca" = GoValue.string C)
    (hK : d.Data.index "private_key" = GoValue.string K)
    (hkp : kp (L ++ "\n" ++ C) K = (c, none)) :
    ∃ cfg : tls.Config, (RefreshTLSConfig kp s).1 = Outcome.returned (some cfg, none)
      ∧ cfg.Certificates.length = 1 ∧ cfg.Certificates = [c] := by
  rw [refresh_of_secret kp s d hw, assemble_strings kp d _ L C K hL hC hK, hkp]
  exact ⟨{ Certificates := crtSlice c }, rfl, rfl, rfl⟩

/-- C8 witness: the accepted pair LEAF, newline, CA with KEY is the one certificate. -/
theorem C8_single_certificate_witness :
    ∃ cfg : tls.Config,
      (RefreshTLSConfig pairAccept (testState (some (secretOf dataFull), none))).1
        = Outcome.returned (some cfg, none)
      ∧ cfg.Certificates.length = 1
      ∧ cfg.Certificates = [{ Certificate := ["LEAF\nCA"], PrivateKey := "KEY" }] :=
  C8_single_certificate pairAccept (testState (some (secretOf dataFull), none))
    (secretOf dataFull) "LEAF" "CA" "KEY" { Certificate := ["LEAF\nCA"], PrivateKey := "KEY" }
    rfl rfl rfl rfl rfl

/-- C9: neither IssueNewCertificate nor RefreshTLSConfig changes the client: whatever the
transport answers and whether or not the call panics, the client in the state after the call
is the client before it, with the same path, common name and TTL; and two calls in a row send
the same request path and body twice. -/
theorem C9_configuration_not_mutated
    (kp : String → String → tls.Certificate × Option GoError) (s : State) :
    (IssueNewCertificate s).2.self = s.self
      ∧ (RefreshTLSConfig kp s).2.self = s.self
      ∧ ((IssueNewCertificate s).2.self.path = s.self.path
        ∧ (IssueNewCertificate s).2.self.cn = s.self.cn
        ∧ (IssueNewCertificate s).2.self.certTTL = s.self.certTTL)
      ∧ ((RefreshTLSConfig kp s).2.self.path = s.self.path
        ∧ (RefreshTLSConfig kp s).2.self.cn = s.self.cn
        ∧ (RefreshTLSConfig kp s).2.self.certTTL = s.self.certTTL)
      ∧ writesOf (IssueNewCertificate (IssueNewCertificate s).2).2.trace
        = writesOf s.trace
          ++ [(s.self.path, issueData s.self), (s.self.path, issueData s.self)]
      ∧ writesOf (RefreshTLSConfig kp (RefreshTLSConfig kp s).2).2.trace
        = writesOf s.trace
          ++ [(s.self.path, issueData s.self), (s.self.path, issueData s.self)] := by
  have hI : (IssueNewCertificate s).2.self = s.self := by rw [issue_state]
  have hR := refresh_frame kp s
  have hR2 := refresh_frame kp (RefreshTLSConfig kp s).2
  refine ⟨hI, hR.1, ?_, ?_, ?_, ?_⟩
  · rw [hI]; exact ⟨rfl, rfl, rfl⟩
  · rw [hR.1]; exact ⟨rfl, rfl, rfl⟩
  · rw [issue_state, issue_state]
    simp [writesOf_append, writesOf]
  · rw [hR2.2, hR.2, hR.1]
    simp

/-- C10, as the code behaves: a client that NewWithConfig returns without error stores
exactly the common name and TTL it was given and the path made of the given mount path, then
/issue/, then the given role, and holds the client that api.NewClient built; New is
NewWithConfig at the default configuration. The strings are not inspected: for all strings,
the empty ones included, NewWithConfig and New return a client and no error whenever
api.NewClient returns a client, and they return no client and the error of api.NewClient
whenever api.NewClient fails. -/
theorem C10_constructor_stores_arguments {Config : Type} (lib : api.Package Config)
    (path role cn certTTL : String) (cfg : Config) (v : VaultPKI)
    (h : NewWithConfig lib path role cn certTTL cfg = (some v, none)) :
    v.cn = cn ∧ v.certTTL = certTTL ∧ v.path = path ++ "/issue/" ++ role
      ∧ lib.NewClient cfg = Except.ok v.Client
      ∧ New lib path role cn certTTL
        = NewWithConfig lib path role cn certTTL lib.DefaultConfig
      ∧ (∀ (p r n t : String) (g : Config) (c : api.Client),
          lib.NewClient g = Except.ok c
          → ∃ w, NewWithConfig lib p r n t g = (some w, none)
            ∧ w.cn = n ∧ w.certTTL = t ∧ w.path = p ++ "/issue/" ++ r)
      ∧ (∀ (p r n t : String) (c : api.Client),
          lib.NewClient lib.DefaultConfig = Except.ok c
          → ∃ w, New lib p r n t = (some w, none)
            ∧ w.cn = n ∧ w.certTTL = t ∧ w.path = p ++ "/issue/" ++ r)
      ∧ (∀ (p r n t : String) (g : Config) (e : GoError),
          lib.NewClient g = Except.error e
          → NewWithConfig lib p r n t g = (none, some e)) := by
  have hall : ∀ (p r n t : String) (g : Config) (c : api.Client),
      lib.NewClient g = Except.ok c
      → ∃ w, NewWithConfig lib p r n t g = (some w, none)
        ∧ w.cn = n ∧ w.certTTL = t ∧ w.path = p ++ "/issue/" ++ r :=
    fun p r n t g c hc => ⟨_, newWithConfig_of_client lib p r n t g c hc, rfl, rfl, rfl⟩
  refine ⟨?_, ?_, ?_, ?_, rfl, hall,
    fun p r n t c hc => hall p r n t lib.DefaultConfig c hc,
    fun p r n t g e he => newWithConfig_of_error lib p r n t g e he⟩ <;>
  · cases hc : lib.NewClient cfg with
    | error err =>
      rw [newWithConfig_of_error lib path role cn certTTL cfg err hc] at h
      simp at h
    | ok c =>
      rw [newWithConfig_of_client lib path role cn certTTL cfg c hc] at h
      simp only [Prod.mk.injEq, Option.some.injEq, and_true] at h
      subst h
      rfl

/-- C10 witness: the constructor call of the package's test, and the library that accepts
every configuration. -/
theorem C10_constructor_stores_arguments_witness :
    (testVault (clientAnswering (none, none))).cn = "some-service.example.tld"
      ∧ (testVault (clientAnswering (none, none))).certTTL = "3600"
      ∧ (testVault (clientAnswering (none, none))).path
        = "test_pki" ++ "/issue/" ++ "some-service-role"
      ∧ libAccept.NewClient () = Except.ok (testVault (clientAnswering (none, none))).Client
      ∧ New libAccept "test_pki" "some-service-role" "some-service.example.tld" "3600"
        = NewWithConfig libAccept "test_pki" "some-service-role" "some-service.example.tld"
            "3600" libAccept.DefaultConfig
      ∧ (∀ (p r n t : String) (g : Unit) (c : api.Client),
          libAccept.NewClient g = Except.ok c
          → ∃ w, NewWithConfig libAccept p r n t g = (some w, none)
            ∧ w.cn = n ∧ w.certTTL = t ∧ w.path = p ++ "/issue/" ++ r)
      ∧ (∀ (p r n t : String) (c : api.Client),
          libAccept.NewClient libAccept.DefaultConfig = Except.ok c
          → ∃ w, New libAccept p r n t = (some w, none)
            ∧ w.cn = n ∧ w.certTTL = t ∧ w.path = p ++ "/issue/" ++ r)
      ∧ (∀ (p r n t : String) (g : Unit) (e : GoError),
          libAccept.NewClient g = Except.error e
          → NewWithConfig libAccept p r n t g = (none, some e)) :=
  C10_constructor_stores_arguments libAccept "test_pki" "some-service-role"
    "some-service.example.tld" "3600" () (testVault (clientAnswering (none, none))) rfl

/-- C10 counterexample: with empty mount path, role, common name and TTL, both constructors
return a client and no error; its common name and TTL are empty and its path is /issue/. -/
theorem C10_counterexample :
    ((NewWithConfig libAccept "" "" "" "" ()).2 = none
        ∧ (NewWithConfig libAccept "" "" "" "" ()).1.map
            (fun v => (v.path, v.role, v.cn, v.certTTL)) = some ("/issue/", "", "", ""))
      ∧ ((New libAccept "" "" "" "").2 = none
        ∧ (New libAccept "" "" "" "").1.map
            (fun v => (v.path, v.role, v.cn, v.certTTL)) = some ("/issue/", "", "", "")) :=
  ⟨⟨rfl, rfl⟩, ⟨rfl, rfl⟩⟩

end vaultpki
